import Mathlib

/-!
Shallow embedding of the AAC speech-recognition orchestration module
(`Initial_API/speechRecognition.py`).  Python floats are modelled as exact
rationals, Python ints as Lean integers/naturals, Python dicts with
present-or-absent keys as structures with `Option` fields, and the external
collaborators (the `wave` module, `sr.AudioFile` decoding, the Google and
Vosk recognizers, `scipy.signal` filtering, and the wall clock) as explicit
oracle parameters.  All catch-all exception handlers of the source appear as
total functions on `Except`/`Option`-valued oracles.
-/

/-- Banker's rounding (round half to even) on an exact rational, modelling
Python's `round` applied to the true value. -/
def roundHalfEven (q : ℚ) : ℤ :=
  let f : ℤ := ⌊q⌋
  let r : ℚ := q - (f : ℚ)
  if r < 1/2 then f
  else if 1/2 < r then f + 1
  else if f % 2 = 0 then f else f + 1

/-- Python `round(x, 3)`. -/
def pyRound3 (q : ℚ) : ℚ := ((roundHalfEven (q * 1000) : ℤ) : ℚ) / 1000

/-- Truncation toward zero, modelling numpy's `.astype(np.int16)` conversion
of an in-range value. -/
def ratTrunc (q : ℚ) : ℤ := if 0 ≤ q then ⌊q⌋ else ⌈q⌉

/-- `sr.AudioData`: 16-bit PCM sample list plus rate and sample width.
`frame_data` holds decoded int16 samples; the Python byte length is
`frame_data.length * sample_width`. -/
structure AudioData where
  frame_data : List ℤ
  sample_rate : ℕ
  sample_width : ℕ
deriving DecidableEq, Repr

/-- Byte length of the raw frame buffer (`len(audio.frame_data)` in Python). -/
def byteLen (a : AudioData) : ℕ := a.frame_data.length * a.sample_width

/-- `audioop.rms`: integer square root of the mean of squared samples
(0 for an empty fragment).  `Nat.sqrt ⌊x⌋ = ⌊Real.sqrt x⌋`, so flooring the
mean first matches C's `(int)sqrt(sum_sq / n)`. -/
def rms (samples : List ℤ) : ℕ :=
  if samples.length = 0 then 0
  else Nat.sqrt ((samples.map (fun s => (s * s).toNat)).sum / samples.length)

-- =========================================================================
-- Quality Validator (`validate_audio_quality`)
-- =========================================================================

structure QualityReport where
  valid : Bool
  issues : List String
  warnings : List String
deriving DecidableEq, Repr

/-- `validate_audio_quality(audio, sample_rate, duration, strict)`.
The issue and warning lists are accumulated in source order.  The source's
`except` branch around `audioop.rms` is unreachable here because
`frame_data` is already a well-formed sample list. -/
def validate_audio_quality (audio : AudioData) (sample_rate : ℕ)
    (duration : ℚ) (strict : Bool) : QualityReport :=
  let rmsVal := rms audio.frame_data
  let issues :=
    (if duration < 1/10 then ["Audio too short (< 0.1s)"] else [])
    ++ (if rmsVal < 50 then ["Audio appears silent or nearly silent"] else [])
    ++ (if strict = true ∧ sample_rate < 8000 then ["Sample rate too low (< 8kHz)"] else [])
  let warnings :=
    (if ¬ rmsVal < 50 ∧ strict = true ∧ rmsVal < 200 then ["Audio volume is low"] else [])
    ++ (if strict = true ∧ duration < 3/10 then ["Audio may be too short for reliable recognition"] else [])
    ++ (if strict = true ∧ ¬ duration < 3/10 ∧ 30 < duration then ["Long audio may increase processing time"] else [])
    ++ (if strict = true ∧ ¬ sample_rate < 8000 ∧ sample_rate < 16000 then ["Sample rate below optimal (16kHz recommended)"] else [])
  { valid := issues.isEmpty, issues := issues, warnings := warnings }

-- =========================================================================
-- Signal Conditioner (`preprocess_audio`)
-- =========================================================================

/-- The single-pole recursive high-pass filter
`y[n] = alpha * (y[n-1] + x[n] - x[n-1])` with `alpha = 0.98`,
after `filtered_data[0] = raw_data[0]`. -/
def simpleFilterAux (yprev xprev : ℚ) : List ℚ → List ℚ
  | [] => []
  | x :: xs =>
    let y := (98/100) * (yprev + x - xprev)
    y :: simpleFilterAux y x xs

def simpleFilter : List ℚ → List ℚ
  | [] => []
  | x :: xs => x :: simpleFilterAux x x xs

/-- Rational absolute value, maximum and minimum written as explicit
comparisons (numpy's elementwise `abs`, `max`, `clip` on exact values). -/
def qAbs (q : ℚ) : ℚ := if q < 0 then -q else q

def qMax (a b : ℚ) : ℚ := if a ≤ b then b else a

def qMin (a b : ℚ) : ℚ := if a ≤ b then a else b

/-- `np.max(np.abs(l))` over a (nonempty) list; the 0 seed is absorbed since
absolute values are nonnegative. -/
def maxAbsQ (l : List ℚ) : ℚ := (l.map qAbs).foldr qMax 0

/-- Peak normalization to 90% of int16 full scale, clamping, and the
`astype(np.int16)` conversion that ends `preprocess_audio`. -/
def finishFilter (audio : AudioData) (filtered : List ℚ) : AudioData :=
  let maxVal := maxAbsQ filtered
  let normalized :=
    if 0 < maxVal then filtered.map (fun q => q * ((32767 : ℚ) * (9/10) / maxVal))
    else filtered
  let clipped := normalized.map (fun q => qMax (-32768) (qMin 32767 q))
  { frame_data := clipped.map ratTrunc
    sample_rate := audio.sample_rate
    sample_width := audio.sample_width }

/-- The body of `preprocess_audio`'s `try` block.  `butter` is the external
`scipy.signal.butter`/`filtfilt` pipeline on the float samples; `none`
models an exception escaping it (caught by the source's `except`), as does
the `ZeroDivisionError` raised when the sample rate is zero. -/
def preprocessBody (butter : List ℚ → Option (List ℚ)) (audio : AudioData)
    (use_simple_filter : Bool) : Option AudioData :=
  let raw : List ℚ := audio.frame_data.map (fun z => (z : ℚ))
  if raw.length = 0 then some audio
  else if use_simple_filter then some (finishFilter audio (simpleFilter raw))
  else if audio.sample_rate = 0 then none
  else
    let nyquist : ℚ := (audio.sample_rate : ℚ) / 2
    let normal_cutoff : ℚ := 80 / nyquist
    if 1 ≤ normal_cutoff ∨ normal_cutoff ≤ 0 then some audio
    else
      match butter raw with
      | none => none
      | some fd => some (finishFilter audio fd)

/-- `preprocess_audio(recognizer, audio, apply_filter, use_simple_filter)`:
disabled filtering returns the input; any internal failure degrades to the
original audio via the catch-all `except`. -/
def preprocess_audio (butter : List ℚ → Option (List ℚ)) (audio : AudioData)
    (apply_filter use_simple_filter : Bool) : AudioData :=
  if apply_filter = false then audio
  else
    match preprocessBody butter audio use_simple_filter with
    | some a => a
    | none => audio

-- =========================================================================
-- Ambient Calibration Cache (`adjust_ambient_noise`)
-- =========================================================================

structure AdjustResult where
  /-- `recognizer.energy_threshold` after the call. -/
  threshold : ℚ
  /-- the module-level `_cached_energy_threshold` after the call. -/
  cache : Option ℚ
  /-- whether `recognizer.adjust_for_ambient_noise` was invoked. -/
  invoked : Bool
deriving DecidableEq, Repr

/-- `adjust_ambient_noise(recognizer, source, duration, use_cached)`.
`st` is the cached module state; `measure` is the external ambient
measurement (`.error` models its exception path, which falls back to a
threshold of 350 without touching the cache).  The `_energy_threshold_lock`
flag is always `False` on entry in the single-threaded model, so a
successful measurement is always cached. -/
def adjust_ambient_noise (st : Option ℚ) (duration : ℚ) (use_cached : Bool)
    (measure : Except Unit ℚ) : AdjustResult :=
  match st, use_cached with
  | some t, true => { threshold := t, cache := some t, invoked := false }
  | _, _ =>
    match measure with
    | .ok v => { threshold := v, cache := some v, invoked := true }
    | .error _ => { threshold := 350, cache := st, invoked := true }

-- =========================================================================
-- Command Classifier (`classify_command`, `COMMAND_CATEGORIES`)
-- =========================================================================

/-- `COMMAND_CATEGORIES`, in Python dict insertion order. -/
def COMMAND_CATEGORIES : List (String × List String) :=
  [("navigation", ["back", "next", "previous", "home", "menu", "exit", "up", "down", "left", "right"]),
   ("selection", ["select", "choose", "pick", "open", "close", "cancel", "confirm", "delete", "yes", "no"]),
   ("communication", ["hello", "goodbye", "thank you", "please", "sorry", "wait", "more", "done", "help"]),
   ("media", ["play", "pause", "stop", "repeat", "louder", "quieter"])]

/-- Python `str.split()` with no argument: split on whitespace runs,
dropping empty pieces (which also subsumes the preceding `.strip()`).
Implemented structurally on the character list, with `acc` holding the
current token reversed. -/
def splitWordsAux : List Char → List Char → List String
  | [], acc => if acc.isEmpty then [] else [String.mk acc.reverse]
  | c :: cs, acc =>
    if c.isWhitespace then
      (if acc.isEmpty then [] else [String.mk acc.reverse]) ++ splitWordsAux cs []
    else splitWordsAux cs (c :: acc)

def pySplitWords (s : String) : List String := splitWordsAux s.toList []

/-- Python `str.lower()`; the ASCII case mapping suffices for the keyword
sets involved. -/
def pyLower (s : String) : String := String.mk (s.toList.map Char.toLower)

/-- Python `str.strip()`: drop leading and trailing whitespace. -/
def pyStrip (s : String) : String :=
  String.mk (((s.toList.dropWhile Char.isWhitespace).reverse.dropWhile Char.isWhitespace).reverse)

/-- The nested `for category ... for word ...` loops of `classify_command`:
the first category whose keyword list contains any token wins. -/
def classifyLoop : List (String × List String) → List String → Option String
  | [], _ => none
  | (category, commands) :: rest, words =>
    if words.any (fun w => commands.contains w) then some category
    else classifyLoop rest words

/-- `classify_command(text)`: `None` for empty text, otherwise the first
matching category in priority order, or `"freeform"` when nothing matches. -/
def classify_command (text : String) : Option String :=
  if text = "" then none
  else
    let words := pySplitWords (pyLower text)
    match classifyLoop COMMAND_CATEGORIES words with
    | some category => some category
    | none => some "freeform"

/-- `get_suggested_actions(text, command_type)`; `text` is accepted but
unused, exactly as in the source. -/
def get_suggested_actions (text : String) (command_type : String) : List String :=
  if command_type = "navigation" then ["confirm_navigation", "show_menu", "go_back"]
  else if command_type = "selection" then ["confirm_selection", "cancel", "show_options"]
  else if command_type = "communication" then ["send_message", "repeat", "edit"]
  else if command_type = "media" then ["adjust_volume", "skip", "stop"]
  else []

-- =========================================================================
-- Vosk decode results (`recognize_vosk`, `extract_word_timing`)
-- =========================================================================

/-- One entry of a Vosk `result` word list; every key is read with a
default, so every field is optional.  The JSON key for `endTime` is `end`
(a Lean keyword). -/
structure VoskWord where
  word : Option String
  start : Option ℚ
  endTime : Option ℚ
  conf : Option ℚ
deriving DecidableEq, Repr

/-- One entry of a Vosk `alternatives` list. -/
structure VoskAlternative where
  text : Option String
  confidence : Option ℚ
deriving DecidableEq, Repr

/-- The parsed JSON of `rec.FinalResult()`: optional top-level `text`,
optional `alternatives` list, optional `result` word list. -/
structure VoskResult where
  text : Option String
  alternatives : Option (List VoskAlternative)
  result : Option (List VoskWord)
deriving DecidableEq, Repr

/-- The confidence extraction at the end of `recognize_vosk`: default 0.5;
a present nonempty `alternatives` list takes priority and contributes
`alternatives[0].get('confidence', 0.5)`; otherwise a present nonempty
`result` list contributes the mean of `word.get('conf', 0.5)`. -/
def vosk_confidence (r : VoskResult) : ℚ :=
  match r.alternatives with
  | some (a :: _) => a.confidence.getD (1/2)
  | _ =>
    match r.result with
    | some (w :: ws) =>
      let word_confidences := (w :: ws).map (fun x => x.conf.getD (1/2))
      word_confidences.sum / (word_confidences.length : ℚ)
    | _ => 1/2

/-- The transcript extraction of `recognize_vosk`:
`result.get('text', '').strip()`. -/
def vosk_text (r : VoskResult) : String := pyStrip (r.text.getD "")

structure WordTiming where
  word : String
  startTime : ℚ
  endTime : ℚ
  confidence : ℚ
deriving DecidableEq, Repr

/-- `extract_word_timing(vosk_result)`. -/
def extract_word_timing (r : VoskResult) : List WordTiming :=
  match r.result with
  | some (w :: ws) =>
    (w :: ws).map (fun wi =>
      { word := wi.word.getD ""
        startTime := pyRound3 (wi.start.getD 0)
        endTime := pyRound3 (wi.endTime.getD 0)
        confidence := pyRound3 (wi.conf.getD (1/2)) })
  | _ => []

-- =========================================================================
-- Backend adapters (`try_google_recognition`, `try_vosk_recognition`)
-- =========================================================================

/-- Outcome of the external `recognizer.recognize_google` call: a
transcript, or one of the exception classes handled by
`try_google_recognition`. -/
inductive GoogleOutcome where
  | ok (text : String)
  | unknownValue
  | requestError (msg : String)
  | otherError (msg : String)
deriving DecidableEq, Repr

/-- The result dict produced by a `try_*_recognition` adapter. Absent keys
(`error` on success, `processingTime` and `wordTiming` on failure or for
Google) are `none`. -/
structure Attempt where
  success : Bool
  text : String
  confidence : ℚ
  error : Option String
  processingTime : Option ℕ
  wordTiming : Option (List WordTiming)
deriving DecidableEq, Repr

/-- `try_google_recognition`: success carries the fixed calibrated
confidence 0.85; `sr.UnknownValueError` maps to "Could not understand
audio", and any other exception to its message. -/
def try_google_recognition (g : GoogleOutcome) (elapsed : ℕ) : Attempt :=
  match g with
  | .ok t =>
    { success := true, text := t, confidence := 85/100, error := none
      processingTime := some elapsed, wordTiming := none }
  | .unknownValue =>
    { success := false, text := "", confidence := 0
      error := some "Could not understand audio", processingTime := none, wordTiming := none }
  | .requestError m =>
    { success := false, text := "", confidence := 0
      error := some m, processingTime := none, wordTiming := none }
  | .otherError m =>
    { success := false, text := "", confidence := 0
      error := some m, processingTime := none, wordTiming := none }

/-- `try_vosk_recognition(audio, command_mode)`.  `model_loaded` is whether
`load_vosk_model` returned a model; `decode` is the external Vosk decode of
the audio (`.error` models an exception raised inside the `try`, caught by
the catch-all `except`). -/
def try_vosk_recognition (model_loaded : Bool) (decode : Except String VoskResult)
    (elapsed : ℕ) : Attempt :=
  if model_loaded = false then
    { success := false, text := "", confidence := 0
      error := some "Vosk model not available", processingTime := none, wordTiming := none }
  else
    match decode with
    | .error m =>
      { success := false, text := "", confidence := 0
        error := some m, processingTime := none, wordTiming := none }
    | .ok r =>
      let text := vosk_text r
      if text = "" then
        { success := false, text := "", confidence := 0
          error := some "Could not understand audio", processingTime := none, wordTiming := none }
      else
        { success := true, text := text, confidence := vosk_confidence r, error := none
          processingTime := some elapsed, wordTiming := some (extract_word_timing r) }

-- =========================================================================
-- Metadata and Result Normalizer (`build_success_response`, `build_error_response`)
-- =========================================================================

/-- The metadata dict of `process_audio` / `get_wav_metadata`; each field
models presence of the corresponding key. -/
structure Metadata where
  duration : Option ℚ
  sampleRate : Option ℕ
  sampleWidth : Option ℕ
  channels : Option ℕ
  format : Option String
  frames : Option ℕ
deriving DecidableEq, Repr

def emptyMetadata : Metadata :=
  { duration := none, sampleRate := none, sampleWidth := none
    channels := none, format := none, frames := none }

/-- One entry of the accumulated per-service error list. -/
structure ServiceError where
  service : String
  error : String
deriving DecidableEq, Repr

structure ErrorInfo where
  code : String
  message : String
  details : Option (List ServiceError)
deriving DecidableEq, Repr

structure AacInfo where
  commandMode : Bool
  commandType : Option String
  isCommand : Bool
  suggestedActions : Option (List String)
deriving DecidableEq, Repr

/-- The `audio` sub-dict shared by both response builders. -/
structure AudioInfo where
  duration : Option ℚ
  sampleRate : Option ℕ
  format : String
  channels : ℕ
deriving DecidableEq, Repr

/-- `metadata.get('sampleRate') or metadata.get('sample_rate')`: the
`or` falls through on a falsy value (absent or 0), and no dict built in
this module ever carries a `sample_rate` key. -/
def sampleRateField (m : Metadata) : Option ℕ :=
  match m.sampleRate with
  | some n => if n = 0 then none else some n
  | none => none

def audioInfoOfMetadata (m : Metadata) : AudioInfo :=
  { duration := m.duration
    sampleRate := sampleRateField m
    format := m.format.getD "WAV"
    channels := m.channels.getD 1 }

/-- The normalized response dict; `none` fields model absent keys
(`transcription` is the JSON `null` on errors). -/
structure Response where
  success : Bool
  transcription : Option String
  confidence : Option ℚ
  service : Option String
  processingTimeMs : ℕ
  audio : AudioInfo
  aac : Option AacInfo
  error : Option ErrorInfo
  wordTiming : Option (List WordTiming)
  warnings : Option (List String)
deriving DecidableEq, Repr

/-- `build_success_response`. -/
def build_success_response (text : String) (service : String) (confidence : ℚ)
    (metadata : Metadata) (processing_time : ℕ) (command_mode : Bool)
    (word_timing : Option (List WordTiming)) : Response :=
  let command_type := if command_mode then classify_command text else none
  let isCommand :=
    match command_type with
    | some c => (COMMAND_CATEGORIES.map Prod.fst).contains c
    | none => false
  let suggestedActions :=
    match command_type with
    | some c =>
      if c ≠ "" ∧ c ≠ "freeform" then some (get_suggested_actions text c) else none
    | none => none
  { success := true
    transcription := some text
    confidence := some (pyRound3 confidence)
    service := some service
    processingTimeMs := processing_time
    audio := audioInfoOfMetadata metadata
    aac := some { commandMode := command_mode, commandType := command_type
                  isCommand := isCommand, suggestedActions := suggestedActions }
    error := none
    wordTiming :=
      match word_timing with
      | some (w :: ws) => some (w :: ws)
      | _ => none
    warnings := none }

/-- `build_error_response`; the `details` and `warnings` keys are attached
only when the corresponding argument is truthy (a nonempty list). -/
def build_error_response (error_code error_message : String) (metadata : Metadata)
    (processing_time : ℕ) (error_details : Option (List ServiceError))
    (warnings : Option (List String)) : Response :=
  { success := false
    transcription := none
    confidence := none
    service := none
    processingTimeMs := processing_time
    audio := audioInfoOfMetadata metadata
    aac := none
    error := some { code := error_code, message := error_message
                    details :=
                      match error_details with
                      | some (e :: es) => some (e :: es)
                      | _ => none }
    wordTiming := none
    warnings :=
      match warnings with
      | some (w :: ws) => some (w :: ws)
      | _ => none }

-- =========================================================================
-- Recognition Orchestrator (`recognize_with_fallback`)
-- =========================================================================

/-- One backend invocation performed by the orchestrator. -/
inductive BackendCall where
  | vosk (command_mode : Bool)
  | google
deriving DecidableEq, Repr

/-- `errors.append({"service": svc, "error": result.get("error", "Unknown error")})`. -/
def toServiceError (svc : String) (a : Attempt) : ServiceError :=
  { service := svc, error := a.error.getD "Unknown error" }

/-- Scheduling of the parallel race: the completion order of the two
futures as delivered by `as_completed`, and how many results arrive before
the overall timeout (fewer than 2 means `FuturesTimeoutError` fires after
the delivered ones). -/
structure RaceEnv where
  googleFirst : Bool
  delivered : ℕ
deriving DecidableEq, Repr

/-- The `for future in as_completed(...)` loop: the first successful result
wins immediately; failures accumulate error entries. -/
def raceLoop (metadata : Metadata) (elapsed : ℕ) :
    List (String × Attempt) → List ServiceError → Except (List ServiceError) Response
  | [], errs => .error errs
  | (svc, a) :: rest, errs =>
    if a.success then
      .ok (build_success_response a.text svc a.confidence metadata elapsed false a.wordTiming)
    else raceLoop metadata elapsed rest (errs ++ [toServiceError svc a])

/-- The parallel branch of `recognize_with_fallback`: both backends are
submitted (Google first in the futures dict, then Vosk without grammar);
`race` fixes the completion order and how many results beat the timeout. -/
def parallelBranch (google_result vosk_result : Attempt) (race : RaceEnv)
    (metadata : Metadata) (parallel_timeout : ℚ) (elapsed : ℕ) :
    Response × List BackendCall :=
  let order :=
    if race.googleFirst then [("google", google_result), ("vosk", vosk_result)]
    else [("vosk", vosk_result), ("google", google_result)]
  let deliveredEvents := order.take race.delivered
  match raceLoop metadata elapsed deliveredEvents [] with
  | .ok resp => (resp, [.google, .vosk false])
  | .error errs =>
    let errs2 :=
      if race.delivered < 2 then
        errs ++ [{ service := "parallel"
                   error := "Timeout after " ++ toString parallel_timeout ++ "s" }]
      else errs
    (build_error_response "ALL_SERVICES_FAILED"
      "No recognition service could process the audio" metadata elapsed
      (some errs2) none,
     [.google, .vosk false])

/-- `recognize_with_fallback`.  `gOut` drives `try_google_recognition`;
`model_loaded` and `vDecode` (indexed by the `command_mode` passed to
`recognize_vosk`, which selects the grammar) drive `try_vosk_recognition`;
`race` schedules the parallel branch; `elapsed` is the wall-clock oracle
for every `processing_time` computation.  Returns the response together
with the list of backend invocations made. -/
def recognize_with_fallback (gOut : GoogleOutcome) (model_loaded : Bool)
    (vDecode : Bool → Except String VoskResult) (race : RaceEnv)
    (metadata : Metadata) (command_mode use_parallel : Bool)
    (parallel_timeout : ℚ) (elapsed : ℕ) : Response × List BackendCall :=
  if command_mode then
    let vosk_result := try_vosk_recognition model_loaded (vDecode true) elapsed
    if vosk_result.success then
      (build_success_response vosk_result.text "vosk" vosk_result.confidence metadata
        elapsed true vosk_result.wordTiming, [.vosk true])
    else
      let google_result := try_google_recognition gOut elapsed
      if google_result.success then
        (build_success_response google_result.text "google" google_result.confidence metadata
          elapsed true none, [.vosk true, .google])
      else
        (build_error_response "ALL_SERVICES_FAILED"
          "No recognition service could process the audio" metadata elapsed
          (some [toServiceError "vosk" vosk_result, toServiceError "google" google_result])
          none,
         [.vosk true, .google])
  else if use_parallel then
    parallelBranch (try_google_recognition gOut elapsed)
      (try_vosk_recognition model_loaded (vDecode false) elapsed)
      race metadata parallel_timeout elapsed
  else
    let google_result := try_google_recognition gOut elapsed
    if google_result.success then
      (build_success_response google_result.text "google" google_result.confidence metadata
        elapsed false none, [.google])
    else
      let vosk_result := try_vosk_recognition model_loaded (vDecode false) elapsed
      if vosk_result.success then
        (build_success_response vosk_result.text "vosk" vosk_result.confidence metadata
          elapsed false vosk_result.wordTiming, [.google, .vosk false])
      else
        (build_error_response "ALL_SERVICES_FAILED"
          "No recognition service could process the audio" metadata elapsed
          (some [toServiceError "google" google_result, toServiceError "vosk" vosk_result])
          none,
         [.google, .vosk false])

-- =========================================================================
-- Main Entry Point (`process_audio`, `detect_audio_format`)
-- =========================================================================

/-- `detect_audio_format(audio_bytes)`: magic-byte sniffing over the raw
byte values (RIFF/WAVE, ID3 or 0xFFFB, fLaC, OggS). -/
def detect_audio_format (audio_bytes : List ℕ) : String :=
  if audio_bytes.length < 12 then "UNKNOWN"
  else if audio_bytes.take 4 = [82, 73, 70, 70] ∧ (audio_bytes.drop 8).take 4 = [87, 65, 86, 69] then "WAV"
  else if audio_bytes.take 3 = [73, 68, 51] ∨ audio_bytes.take 2 = [255, 251] then "MP3"
  else if audio_bytes.take 4 = [102, 76, 97, 67] then "FLAC"
  else if audio_bytes.take 4 = [79, 103, 103, 83] then "OGG"
  else "UNKNOWN"

/-- Python truthiness of the `trusted_format: Optional[str]` argument. -/
def pyTruthyStr : Option String → Bool
  | some s => if s = "" then false else true
  | none => false

/-- The audio source opened by `sr.AudioFile`: the recorded `AudioData`
plus the source's header constants. -/
structure DecodedSource where
  audio : AudioData
  SAMPLE_RATE : ℕ
  SAMPLE_WIDTH : ℕ
deriving DecidableEq, Repr

/-- The value returned by one `process_audio` call, extended with the
observable effects the claims are about: which backends were invoked,
the exact audio handed to `recognize_with_fallback` (`none` when the
pipeline short-circuited first), whether `preprocess_audio` was invoked,
and the calibration-cache state afterwards. -/
structure ProcessResult where
  response : Response
  calls : List BackendCall
  audioUsed : Option AudioData
  preprocessApplied : Bool
  cache : Option ℚ
deriving DecidableEq, Repr

/-- The tail of `process_audio` from the preprocessing decision onwards:
conditioning (skipped in command mode), recognition, and the merge of
validation warnings into the result. -/
def runRecognition (audio : AudioData) (metadata : Metadata) (warnings : List String)
    (st1 : Option ℚ) (butter : List ℚ → Option (List ℚ)) (gOut : GoogleOutcome)
    (model_loaded : Bool) (vDecode : Bool → Except String VoskResult) (race : RaceEnv)
    (elapsed : ℕ) (command_mode skip_preprocessing use_parallel use_simple_filter : Bool) :
    ProcessResult :=
  let should_preprocess := !skip_preprocessing && !command_mode
  let audio2 :=
    if should_preprocess then preprocess_audio butter audio true use_simple_filter
    else audio
  let rc := recognize_with_fallback gOut model_loaded vDecode race metadata command_mode
    (use_parallel && !command_mode) 5 elapsed
  let resp :=
    if warnings = [] then rc.1
    else { rc.1 with warnings := some ((rc.1.warnings.getD []) ++ warnings) }
  { response := resp
    calls := rc.2
    audioUsed := some audio2
    preprocessApplied := should_preprocess
    cache := st1 }

/-- The duration backfill of `process_audio`: when the metadata lacks a
duration, it is estimated as byte length over `SAMPLE_RATE * SAMPLE_WIDTH`
and rounded to 3 decimals; `none` models the `ZeroDivisionError` Python
raises (caught by the outer handler) when that product is zero. -/
def backfillDuration (m2 : Metadata) (audio : AudioData) (SR SW : ℕ) : Option Metadata :=
  if m2.duration = none then
    if SR * SW = 0 then none
    else
      let d : ℚ := (byteLen audio : ℚ) / ((SR : ℚ) * (SW : ℚ))
      some { m2 with duration := some (pyRound3 d) }
  else some m2

/-- The validation stage of `process_audio` and everything after it: the
quality gate (strict unless in command mode), which short-circuits to an
`AUDIO_QUALITY_ISSUES` error on blocking issues before any backend or
conditioning work, followed by `runRecognition`. -/
def validationStage (audio : AudioData) (metadata : Metadata) (st1 : Option ℚ)
    (butter : List ℚ → Option (List ℚ)) (gOut : GoogleOutcome) (model_loaded : Bool)
    (vDecode : Bool → Except String VoskResult) (race : RaceEnv) (elapsed : ℕ)
    (command_mode skip_preprocessing skip_validation use_parallel use_simple_filter : Bool) :
    ProcessResult :=
  if skip_validation = false then
    let validation := validate_audio_quality audio (metadata.sampleRate.getD 0)
      (metadata.duration.getD 0) (!command_mode)
    if validation.valid = false then
      { response := build_error_response "AUDIO_QUALITY_ISSUES"
          (String.intercalate "; " validation.issues) metadata elapsed none
          (some validation.warnings)
        calls := [], audioUsed := none, preprocessApplied := false, cache := st1 }
    else
      runRecognition audio metadata validation.warnings st1 butter gOut model_loaded vDecode
        race elapsed command_mode skip_preprocessing use_parallel use_simple_filter
  else
    runRecognition audio metadata [] st1 butter gOut model_loaded vDecode
      race elapsed command_mode skip_preprocessing use_parallel use_simple_filter

/-- `process_audio`.  Oracles: `wavMeta` is the `get_wav_metadata` result
(the empty dict on failure); `src` is the outcome of opening and recording
through `sr.AudioFile` (`.error msg` models an exception caught by the
outer handler, which reports `PROCESSING_ERROR`); `measure` is the ambient
calibration measurement; `st` the cached-threshold state; `elapsed` the
wall-clock oracle. -/
def process_audio
    (audio_bytes : List ℕ) (wavMeta : Metadata) (src : Except String DecodedSource)
    (gOut : GoogleOutcome) (model_loaded : Bool) (vDecode : Bool → Except String VoskResult)
    (race : RaceEnv) (measure : Except Unit ℚ) (st : Option ℚ)
    (butter : List ℚ → Option (List ℚ)) (elapsed : ℕ)
    (command_mode skip_preprocessing skip_validation : Bool)
    (trusted_format : Option String)
    (use_parallel use_simple_filter use_cached_threshold : Bool) : ProcessResult :=
  if audio_bytes = [] then
    { response := build_error_response "NO_AUDIO_DATA" "No audio data received" emptyMetadata 0 none none
      calls := [], audioUsed := none, preprocessApplied := false, cache := st }
  else
    let audio_format :=
      if pyTruthyStr trusted_format then trusted_format.getD ""
      else detect_audio_format audio_bytes
    let metadata0 :=
      if audio_format = "WAV" then wavMeta
      else { emptyMetadata with format := some audio_format }
    match src with
    | .error msg =>
      { response := build_error_response "PROCESSING_ERROR" msg metadata0 elapsed none none
        calls := [], audioUsed := none, preprocessApplied := false, cache := st }
    | .ok s =>
      let adj :=
        if (3 : ℚ)/10 < metadata0.duration.getD 0 then
          some (adjust_ambient_noise st (2/10) use_cached_threshold measure)
        else none
      let st1 := match adj with | some a => a.cache | none => st
      let audio := s.audio
      let m1 :=
        if metadata0.sampleRate = none then { metadata0 with sampleRate := some s.SAMPLE_RATE }
        else metadata0
      let m2 :=
        if m1.sampleWidth = none then { m1 with sampleWidth := some s.SAMPLE_WIDTH }
        else m1
      match backfillDuration m2 audio s.SAMPLE_RATE s.SAMPLE_WIDTH with
      | none =>
        { response := build_error_response "PROCESSING_ERROR" "division by zero" m2 elapsed none none
          calls := [], audioUsed := none, preprocessApplied := false, cache := st1 }
      | some m3 =>
        validationStage audio m3 st1 butter gOut model_loaded vDecode race elapsed
          command_mode skip_preprocessing skip_validation use_parallel use_simple_filter

-- =========================================================================
-- Spec-side definitions (used to state refinement-style claims)
-- =========================================================================

/-- Spec-side reading of the classifier contract: the first category in the
fixed priority order whose keyword set contains any token of the
lower-cased transcript. -/
def firstMatchingCategory (text : String) : Option String :=
  (COMMAND_CATEGORIES.find?
    (fun p => (pySplitWords (pyLower text)).any (fun w => p.2.contains w))).map Prod.fst

/-- Spec-side reading of the confidence rule: the arithmetic mean of the
per-word confidences of the decode result, or the midpoint default 0.5
when no per-word data exists. -/
def meanPerWordConfidence (r : VoskResult) : ℚ :=
  match r.result with
  | some (w :: ws) =>
    ((w :: ws).map (fun x => x.conf.getD (1/2))).sum / (((w :: ws).length : ℚ))
  | _ => 1/2

/-- Whether the decode result carries a truthy `alternatives` list. -/
def hasAlternatives (r : VoskResult) : Bool :=
  match r.alternatives with
  | some (_ :: _) => true
  | _ => false

/-- The per-backend failure entries carried by a response (the
`error.details` list; empty when the key is absent or the response is a
success). -/
def backendEntries (r : Response) : List ServiceError :=
  match r.error with
  | some e => e.details.getD []
  | none => []

-- =========================================================================
-- Helper lemmas
-- =========================================================================

lemma valid_eq_false_of_rms_lt (audio : AudioData) (sample_rate : ℕ)
    (duration : ℚ) (strict : Bool) (h : rms audio.frame_data < 50) :
    (validate_audio_quality audio sample_rate duration strict).valid = false := by
  simp only [validate_audio_quality, h, if_true, if_pos]
  simp [List.isEmpty_eq_true]

lemma valid_eq_false_of_short_duration (audio : AudioData) (sample_rate : ℕ)
    (duration : ℚ) (strict : Bool) (h : duration < 1/10) :
    (validate_audio_quality audio sample_rate duration strict).valid = false := by
  simp only [validate_audio_quality, h, if_true, if_pos]
  simp [List.isEmpty_eq_true]

lemma preprocess_empty (butter : List ℚ → Option (List ℚ)) (audio : AudioData)
    (apply_filter use_simple_filter : Bool) (h : audio.frame_data = []) :
    preprocess_audio butter audio apply_filter use_simple_filter = audio := by
  unfold preprocess_audio preprocessBody
  cases apply_filter <;> simp [h]

-- =========================================================================
-- Claims
-- =========================================================================

/-- C4: for every clip with duration strictly less than 0.1 seconds, the
quality validator returns a report with `valid = false`, for both values of
the strict flag. -/
theorem validate_short_duration_invalid (audio : AudioData) (sample_rate : ℕ)
    (duration : ℚ) (strict : Bool) (h : duration < 1/10) :
    (validate_audio_quality audio sample_rate duration strict).valid = false :=
  valid_eq_false_of_short_duration audio sample_rate duration strict h

/-- Witness for C4 at a concrete 0.05-second clip, in both strict modes. -/
theorem validate_short_duration_invalid_witness :
    ((1 : ℚ)/20 < 1/10)
    ∧ (validate_audio_quality ⟨[100, 100], 16000, 2⟩ 16000 (1/20) true).valid = false
    ∧ (validate_audio_quality ⟨[100, 100], 16000, 2⟩ 16000 (1/20) false).valid = false :=
  ⟨by norm_num,
   validate_short_duration_invalid ⟨[100, 100], 16000, 2⟩ 16000 (1/20) true (by norm_num),
   validate_short_duration_invalid ⟨[100, 100], 16000, 2⟩ 16000 (1/20) false (by norm_num)⟩

/-- C8: with a cached threshold and caching requested, two consecutive
calibration calls set an identical threshold, neither re-invokes the
underlying calibration routine, and the cache is unchanged; additionally,
a first call that calibrates afresh (cache empty, measurement `v`) seeds
the cache so that the second call returns `v` without re-invoking. -/
theorem calibration_cache_consistent (t v : ℚ) (d1 d2 : ℚ)
    (m1 m2 : Except Unit ℚ) :
    (let r1 := adjust_ambient_noise (some t) d1 true m1
     let r2 := adjust_ambient_noise r1.cache d2 true m2
     r1.threshold = t ∧ r2.threshold = t ∧ r1.invoked = false ∧ r2.invoked = false
       ∧ r1.cache = some t ∧ r2.cache = some t)
    ∧ (let s1 := adjust_ambient_noise none d1 true (.ok v)
       let s2 := adjust_ambient_noise s1.cache d2 true m2
       s1.threshold = v ∧ s2.threshold = v ∧ s1.invoked = true ∧ s2.invoked = false) := by
  refine ⟨⟨rfl, rfl, rfl, rfl, rfl, rfl⟩, ⟨rfl, rfl, rfl, rfl⟩⟩

/-- C9: the conditioner returns its input unchanged when filtering is
disabled, when the sample data is empty, and when an internal failure
occurs (the external filter raising, or the zero-sample-rate division
error); being a total function, it never raises to its caller. -/
theorem preprocess_degrades_to_input (butter : List ℚ → Option (List ℚ))
    (audio : AudioData) (use_simple_filter : Bool) :
    (preprocess_audio butter audio false use_simple_filter = audio)
    ∧ (audio.frame_data = [] → ∀ apply_filter,
        preprocess_audio butter audio apply_filter use_simple_filter = audio)
    ∧ (butter (audio.frame_data.map (fun z => (z : ℚ))) = none →
        preprocess_audio butter audio true false = audio)
    ∧ (audio.sample_rate = 0 →
        preprocess_audio butter audio true false = audio) := by
  refine ⟨by simp [preprocess_audio], fun h af => preprocess_empty butter audio af use_simple_filter h, ?_, ?_⟩
  · intro h
    simp only [preprocess_audio, preprocessBody, Bool.true_eq_false, Bool.false_eq_true,
      if_false, h]
    split_ifs <;> rfl
  · intro h
    simp only [preprocess_audio, preprocessBody, Bool.true_eq_false, Bool.false_eq_true,
      if_false, h]
    split_ifs <;> rfl

/-- Witness for C9: a concrete clip with a failing external filter, and a
concrete zero-rate clip, are both returned unchanged. -/
theorem preprocess_degrades_to_input_witness :
    ((fun _ : List ℚ => (none : Option (List ℚ))) ([5, 7].map (fun z => ((z : ℤ) : ℚ))) = none)
    ∧ preprocess_audio (fun _ => none) ⟨[5, 7], 16000, 2⟩ true false = ⟨[5, 7], 16000, 2⟩
    ∧ (⟨[5, 7], 0, 2⟩ : AudioData).sample_rate = 0
    ∧ preprocess_audio (fun l => some l) ⟨[5, 7], 0, 2⟩ true false = ⟨[5, 7], 0, 2⟩
    ∧ ((⟨[], 16000, 2⟩ : AudioData).frame_data = [])
    ∧ preprocess_audio (fun l => some l) ⟨[], 16000, 2⟩ true true = ⟨[], 16000, 2⟩ :=
  ⟨rfl,
   (preprocess_degrades_to_input (fun _ => none) ⟨[5, 7], 16000, 2⟩ false).2.2.1 rfl,
   rfl,
   (preprocess_degrades_to_input (fun l => some l) ⟨[5, 7], 0, 2⟩ false).2.2.2 rfl,
   rfl,
   (preprocess_degrades_to_input (fun l => some l) ⟨[], 16000, 2⟩ true).2.1 rfl true⟩

/-- C5 counterexample: with the single-pole filter enabled, conditioning
the two-sample clip `[100, 100]` twice does not reproduce conditioning it
once (`[29490, 28322]` versus `[29490, 28900]`): the claimed idempotence
fails. -/
theorem preprocess_not_idempotent_counterexample :
    preprocess_audio (fun l => some l)
      (preprocess_audio (fun l => some l) ⟨[100, 100], 16000, 2⟩ true true) true true
    ≠ preprocess_audio (fun l => some l) ⟨[100, 100], 16000, 2⟩ true true := by
  norm_num [preprocess_audio, preprocessBody, simpleFilter, simpleFilterAux,
    finishFilter, maxAbsQ, qAbs, qMax, qMin, ratTrunc]

/-- C5 amended: conditioning twice with identical parameters equals
conditioning once when conditioning is disabled, or when the clip's sample
data is empty; with filtering enabled this does not hold in general. -/
theorem preprocess_idempotent_disabled_or_empty (butter : List ℚ → Option (List ℚ))
    (audio : AudioData) (use_simple_filter : Bool) :
    (preprocess_audio butter (preprocess_audio butter audio false use_simple_filter)
        false use_simple_filter
      = preprocess_audio butter audio false use_simple_filter)
    ∧ (audio.frame_data = [] → ∀ apply_filter,
        preprocess_audio butter (preprocess_audio butter audio apply_filter use_simple_filter)
            apply_filter use_simple_filter
          = preprocess_audio butter audio apply_filter use_simple_filter) := by
  constructor
  · simp [preprocess_audio]
  · intro h apply_filter
    rw [preprocess_empty butter audio apply_filter use_simple_filter h,
      preprocess_empty butter audio apply_filter use_simple_filter h]

/-- Witness for C5 amended: a concrete empty clip with filtering enabled. -/
theorem preprocess_idempotent_disabled_or_empty_witness :
    ((⟨[], 16000, 2⟩ : AudioData).frame_data = [])
    ∧ preprocess_audio (fun l => some l)
        (preprocess_audio (fun l => some l) ⟨[], 16000, 2⟩ true true) true true
      = preprocess_audio (fun l => some l) ⟨[], 16000, 2⟩ true true :=
  ⟨rfl, (preprocess_idempotent_disabled_or_empty (fun l => some l) ⟨[], 16000, 2⟩ true).2 rfl true⟩

/-- C6 counterexample: on a decode result carrying both an `alternatives`
list (confidence 0.9) and per-word confidences (mean 0.1), the code reports
the first alternative's confidence, not the per-word mean. -/
theorem vosk_confidence_alternatives_counterexample :
    vosk_confidence ⟨none, some [⟨none, some (9/10)⟩],
        some [⟨some "yes", some 0, some 1, some (1/10)⟩]⟩ = 9/10
    ∧ meanPerWordConfidence ⟨none, some [⟨none, some (9/10)⟩],
        some [⟨some "yes", some 0, some 1, some (1/10)⟩]⟩ = 1/10
    ∧ ((9 : ℚ)/10) ≠ 1/10 :=
  ⟨by norm_num [vosk_confidence], by norm_num [meanPerWordConfidence], by norm_num⟩

/-- C6 amended: when the decode result carries no (truthy) `alternatives`
list, the reported confidence is the arithmetic mean of the per-word
confidences, or the midpoint default 0.5 when no per-word data exists;
a present nonempty `alternatives` list takes priority instead. -/
theorem vosk_confidence_mean_without_alternatives (r : VoskResult)
    (h : hasAlternatives r = false) :
    vosk_confidence r = meanPerWordConfidence r := by
  rcases halts : r.alternatives with _ | alts
  · cases hres : r.result with
    | none => simp [vosk_confidence, meanPerWordConfidence, halts, hres]
    | some l =>
      cases l with
      | nil => simp [vosk_confidence, meanPerWordConfidence, halts, hres]
      | cons w ws => simp [vosk_confidence, meanPerWordConfidence, halts, hres]
  · cases alts with
    | nil =>
      cases hres : r.result with
      | none => simp [vosk_confidence, meanPerWordConfidence, halts, hres]
      | some l =>
        cases l with
        | nil => simp [vosk_confidence, meanPerWordConfidence, halts, hres]
        | cons w ws => simp [vosk_confidence, meanPerWordConfidence, halts, hres]
    | cons a as => simp [hasAlternatives, halts] at h

/-- Witness for C6 amended at a concrete alternatives-free decode result. -/
theorem vosk_confidence_mean_without_alternatives_witness :
    hasAlternatives ⟨some "go", none, some [⟨some "go", some 0, some (1/2), some (3/10)⟩]⟩ = false
    ∧ vosk_confidence ⟨some "go", none, some [⟨some "go", some 0, some (1/2), some (3/10)⟩]⟩
      = meanPerWordConfidence ⟨some "go", none, some [⟨some "go", some 0, some (1/2), some (3/10)⟩]⟩ :=
  ⟨rfl, vosk_confidence_mean_without_alternatives
    ⟨some "go", none, some [⟨some "go", some 0, some (1/2), some (3/10)⟩]⟩ rfl⟩

lemma classifyLoop_eq_find (words : List String) :
    ∀ cats : List (String × List String),
      classifyLoop cats words
        = (cats.find? (fun p => words.any (fun w => p.2.contains w))).map Prod.fst := by
  intro cats
  induction cats with
  | nil => rfl
  | cons p rest ih =>
    obtain ⟨category, commands⟩ := p
    cases hmatch : words.any (fun w => commands.contains w) with
    | true =>
      rw [List.find?_cons_of_pos rest hmatch]
      simp only [classifyLoop, hmatch, if_true]
      rfl
    | false =>
      rw [List.find?_cons_of_neg rest (by simpa using hmatch)]
      simp only [classifyLoop, hmatch, Bool.false_eq_true, if_false, ih]

/-- C7: for every transcript, the classifier returns the first category in
the fixed priority order (navigation, selection, communication, media)
containing any token of the lower-cased transcript, `"freeform"` when no
token matches, and `none` exactly on the empty transcript (the case in
which classification is not attempted). -/
theorem classify_command_first_category (text : String) :
    (text ≠ "" → classify_command text
      = some ((firstMatchingCategory text).getD "freeform"))
    ∧ (classify_command text = none ↔ text = "") := by
  constructor
  · intro h
    simp only [classify_command, if_neg h]
    rw [classifyLoop_eq_find]
    unfold firstMatchingCategory
    cases hf : COMMAND_CATEGORIES.find?
      (fun p => (pySplitWords (pyLower text)).any (fun w => p.2.contains w)) with
    | none => simp [hf]
    | some p => simp [hf]
  · constructor
    · intro h
      by_contra hne
      simp only [classify_command, if_neg hne] at h
      revert h
      cases classifyLoop COMMAND_CATEGORIES (pySplitWords (pyLower text)) <;> simp
    · intro h
      simp [classify_command, h]

/-- Witness for C7 at the transcript `"yes"`, which the priority order
sends to `"selection"`. -/
theorem classify_command_first_category_witness :
    ("yes" : String) ≠ ""
    ∧ classify_command "yes" = some ((firstMatchingCategory "yes").getD "freeform")
    ∧ (firstMatchingCategory "yes").getD "freeform" = "selection" :=
  ⟨by decide, (classify_command_first_category "yes").1 (by decide), by decide⟩

/-- C2 amended: in command mode, when the grammar-constrained offline
backend fails and the cloud backend succeeds, the outcome is a success
whose selected backend is `"google"`, and exactly two backend attempts are
made (Vosk with grammar first, then Google); the success response itself
carries no per-backend entries — only failed attempts are recorded in the
internal error list, which a success response discards. -/
theorem fallback_selects_google_two_attempts
    (t : String) (model_loaded : Bool) (vDecode : Bool → Except String VoskResult)
    (race : RaceEnv) (metadata : Metadata) (use_parallel : Bool) (pt : ℚ) (elapsed : ℕ)
    (hv : (try_vosk_recognition model_loaded (vDecode true) elapsed).success = false) :
    let rc := recognize_with_fallback (.ok t) model_loaded vDecode race metadata
      true use_parallel pt elapsed
    rc.1.success = true ∧ rc.1.service = some "google"
      ∧ rc.2 = [.vosk true, .google] ∧ rc.1.error = none
      ∧ backendEntries rc.1 = [] := by
  simp [recognize_with_fallback, hv, try_google_recognition, build_success_response,
    backendEntries]

/-- Witness for C2 amended: Vosk fails concretely (model not loaded) and
Google returns "hello". -/
theorem fallback_selects_google_two_attempts_witness :
    (try_vosk_recognition false ((fun _ : Bool => Except.error "x") true) 0).success = false
    ∧ (let rc := recognize_with_fallback (.ok "hello") false (fun _ => .error "x")
        ⟨true, 2⟩ emptyMetadata true true 5 0
       rc.1.success = true ∧ rc.1.service = some "google"
         ∧ rc.2 = [.vosk true, .google] ∧ rc.1.error = none
         ∧ backendEntries rc.1 = []) :=
  ⟨rfl, fallback_selects_google_two_attempts "hello" false (fun _ => .error "x")
    ⟨true, 2⟩ emptyMetadata true 5 0 rfl⟩

/-- C2 counterexample: in the concrete failing-Vosk / succeeding-Google
command-mode scenario, the final outcome carries zero BackendResult
entries, not the two the claim asserts. -/
theorem fallback_two_entries_counterexample :
    let rc := recognize_with_fallback (.ok "hello") false (fun _ => .error "x")
      ⟨true, 2⟩ emptyMetadata true true 5 0
    rc.1.success = true ∧ rc.1.service = some "google"
      ∧ (backendEntries rc.1).length = 0
      ∧ (backendEntries rc.1).length ≠ 2 := by
  simp [recognize_with_fallback, try_vosk_recognition, try_google_recognition,
    build_success_response, backendEntries]

lemma raceLoop_all_fail (metadata : Metadata) (elapsed : ℕ) :
    ∀ (events : List (String × Attempt)) (errs : List ServiceError),
      (∀ e ∈ events, e.2.success = false) →
      raceLoop metadata elapsed events errs
        = .error (errs ++ events.map (fun e => toServiceError e.1 e.2)) := by
  intro events
  induction events with
  | nil => intro errs _; simp [raceLoop]
  | cons e rest ih =>
    intro errs h
    obtain ⟨svc, a⟩ := e
    have ha : a.success = false := h (svc, a) (List.mem_cons_self _ _)
    simp [raceLoop, ha, ih (errs ++ [toServiceError svc a])
      (fun x hx => h x (List.mem_cons_of_mem _ hx))]

lemma build_error_fields (code msg : String) (m : Metadata) (pt : ℕ)
    (errs : List ServiceError) (w : Option (List String)) (h : errs ≠ []) :
    (build_error_response code msg m pt (some errs) w).success = false
    ∧ ((build_error_response code msg m pt (some errs) w).error.map ErrorInfo.code) = some code
    ∧ backendEntries (build_error_response code msg m pt (some errs) w) = errs := by
  obtain ⟨e, es, rfl⟩ := List.exists_cons_of_ne_nil h
  simp [build_error_response, backendEntries]

lemma parallelBranch_all_fail (google_result vosk_result : Attempt) (race : RaceEnv)
    (metadata : Metadata) (pt : ℚ) (elapsed : ℕ)
    (hg : google_result.success = false) (hv : vosk_result.success = false) :
    (parallelBranch google_result vosk_result race metadata pt elapsed).1.success = false
    ∧ ((parallelBranch google_result vosk_result race metadata pt elapsed).1.error.map
        ErrorInfo.code) = some "ALL_SERVICES_FAILED"
    ∧ backendEntries (parallelBranch google_result vosk_result race metadata pt elapsed).1
      ≠ [] := by
  have horder : ∀ e ∈ (if race.googleFirst then
        [("google", google_result), ("vosk", vosk_result)]
      else
        [("vosk", vosk_result), ("google", google_result)]).take race.delivered,
      e.2.success = false := by
    intro e he
    have hmem := List.mem_of_mem_take he
    cases hgf : race.googleFirst <;> rw [hgf] at hmem <;> simp at hmem <;>
      rcases hmem with h1 | h1 <;> rw [h1] <;> simp [hg, hv]
  simp only [parallelBranch]
  rw [raceLoop_all_fail _ _ _ _ horder]
  simp only [List.nil_append]
  by_cases hd : race.delivered < 2
  · simp only [hd, if_true]
    have hne : ((if race.googleFirst then
          [("google", google_result), ("vosk", vosk_result)]
        else
          [("vosk", vosk_result), ("google", google_result)]).take race.delivered).map
          (fun e => toServiceError e.1 e.2)
        ++ [{ service := "parallel", error := "Timeout after " ++ toString pt ++ "s" }] ≠ [] := by
      simp
    obtain ⟨h1, h2, h3⟩ := build_error_fields "ALL_SERVICES_FAILED"
      "No recognition service could process the audio" metadata elapsed _ none hne
    exact ⟨h1, h2, by rw [h3]; exact hne⟩
  · simp only [hd, if_false]
    have htake : (if race.googleFirst then
          [("google", google_result), ("vosk", vosk_result)]
        else
          [("vosk", vosk_result), ("google", google_result)]).take race.delivered
        = (if race.googleFirst then
          [("google", google_result), ("vosk", vosk_result)]
        else
          [("vosk", vosk_result), ("google", google_result)]) := by
      apply List.take_of_length_le
      cases race.googleFirst <;> simp <;> omega
    rw [htake]
    have hne : (if race.googleFirst then
          [("google", google_result), ("vosk", vosk_result)]
        else
          [("vosk", vosk_result), ("google", google_result)]).map
          (fun e => toServiceError e.1 e.2) ≠ [] := by
      cases race.googleFirst <;> simp
    obtain ⟨h1, h2, h3⟩ := build_error_fields "ALL_SERVICES_FAILED"
      "No recognition service could process the audio" metadata elapsed _ none hne
    exact ⟨h1, h2, by rw [h3]; exact hne⟩

/-- C3 amended: whenever every backend fails (including a parallel race
that delivers only failures or times out), the orchestrator still returns
a fully formed response value with `success = false`, error code
`ALL_SERVICES_FAILED` (the source's identifier for the
all-backends-failed terminal state), and a nonempty details list of the
individual backend failures. -/
theorem all_failed_returns_all_services_failed
    (gOut : GoogleOutcome) (model_loaded : Bool)
    (vDecode : Bool → Except String VoskResult) (race : RaceEnv)
    (metadata : Metadata) (command_mode use_parallel : Bool) (pt : ℚ) (elapsed : ℕ)
    (hg : (try_google_recognition gOut elapsed).success = false)
    (hv : ∀ b, (try_vosk_recognition model_loaded (vDecode b) elapsed).success = false) :
    let rc := recognize_with_fallback gOut model_loaded vDecode race metadata
      command_mode use_parallel pt elapsed
    rc.1.success = false
      ∧ (rc.1.error.map ErrorInfo.code) = some "ALL_SERVICES_FAILED"
      ∧ backendEntries rc.1 ≠ [] := by
  cases command_mode with
  | true =>
    simp [recognize_with_fallback, hg, hv true, build_error_response, backendEntries]
  | false =>
    cases use_parallel with
    | false =>
      simp [recognize_with_fallback, hg, hv false, build_error_response, backendEntries]
    | true =>
      simp only [recognize_with_fallback, Bool.true_eq_false, Bool.false_eq_true,
        if_false, if_true]
      exact parallelBranch_all_fail _ _ race metadata pt elapsed hg (hv false)

/-- Witness for C3 amended: both backends fail concretely under the
parallel race with one delivered failure before timeout. -/
theorem all_failed_returns_all_services_failed_witness :
    (try_google_recognition .unknownValue 0).success = false
    ∧ (∀ b, (try_vosk_recognition false ((fun _ : Bool => Except.error "x") b) 0).success = false)
    ∧ (let rc := recognize_with_fallback .unknownValue false (fun _ => .error "x")
        ⟨true, 1⟩ emptyMetadata false true 5 0
       rc.1.success = false
         ∧ (rc.1.error.map ErrorInfo.code) = some "ALL_SERVICES_FAILED"
         ∧ backendEntries rc.1 ≠ []) :=
  ⟨rfl, fun _ => rfl,
   all_failed_returns_all_services_failed .unknownValue false (fun _ => .error "x")
     ⟨true, 1⟩ emptyMetadata false true 5 0 rfl (fun _ => rfl)⟩

/-- C3 counterexample: in a concrete all-backends-fail run the emitted
error code is the string `"ALL_SERVICES_FAILED"`, not the claimed
`"ALL_BACKENDS_FAILED"`. -/
theorem all_failed_error_code_counterexample :
    let rc := recognize_with_fallback .unknownValue false (fun _ => .error "x")
      ⟨true, 2⟩ emptyMetadata false false 5 0
    rc.1.success = false
      ∧ (rc.1.error.map ErrorInfo.code) = some "ALL_SERVICES_FAILED"
      ∧ (rc.1.error.map ErrorInfo.code) ≠ some "ALL_BACKENDS_FAILED" := by
  refine ⟨rfl, rfl, ?_⟩
  intro h
  simp [recognize_with_fallback, try_google_recognition, try_vosk_recognition,
    build_error_response] at h

lemma backfillDuration_ne_none {m2 : Metadata} {audio : AudioData} {SR SW : ℕ}
    (h : SR * SW ≠ 0) : backfillDuration m2 audio SR SW ≠ none := by
  unfold backfillDuration
  split_ifs with h1 h2 <;> simp_all

lemma validationStage_silent (audio : AudioData) (metadata : Metadata) (st1 : Option ℚ)
    (butter : List ℚ → Option (List ℚ)) (gOut : GoogleOutcome) (model_loaded : Bool)
    (vDecode : Bool → Except String VoskResult) (race : RaceEnv) (elapsed : ℕ)
    (command_mode skip_preprocessing use_parallel use_simple_filter : Bool)
    (h : rms audio.frame_data < 50) :
    let p := validationStage audio metadata st1 butter gOut model_loaded vDecode race elapsed
      command_mode skip_preprocessing false use_parallel use_simple_filter
    p.response.success = false
      ∧ (p.response.error.map ErrorInfo.code) = some "AUDIO_QUALITY_ISSUES"
      ∧ p.calls = [] ∧ p.audioUsed = none := by
  have hval := valid_eq_false_of_rms_lt audio (metadata.sampleRate.getD 0)
    (metadata.duration.getD 0) (!command_mode) h
  simp [validationStage, hval, build_error_response]

/-- C1: for every successfully decoded clip whose measured RMS energy is
below the silence floor (rms < 50), processing with validation enabled
short-circuits before invoking any recognition backend (and before
conditioning), and the output has `success = false` with error code
`AUDIO_QUALITY_ISSUES`.  The source's positive header constants are
assumed (a zero rate or width would instead raise Python's
`ZeroDivisionError` in the duration backfill). -/
theorem process_audio_silent_short_circuits
    (audio_bytes : List ℕ) (wavMeta : Metadata) (s : DecodedSource)
    (gOut : GoogleOutcome) (model_loaded : Bool) (vDecode : Bool → Except String VoskResult)
    (race : RaceEnv) (measure : Except Unit ℚ) (st : Option ℚ)
    (butter : List ℚ → Option (List ℚ)) (elapsed : ℕ)
    (command_mode skip_preprocessing : Bool) (trusted_format : Option String)
    (use_parallel use_simple_filter use_cached_threshold : Bool)
    (hbytes : audio_bytes ≠ [])
    (hsr : 0 < s.SAMPLE_RATE) (hsw : 0 < s.SAMPLE_WIDTH)
    (hrms : rms s.audio.frame_data < 50) :
    let p := process_audio audio_bytes wavMeta (.ok s) gOut model_loaded vDecode race measure st
      butter elapsed command_mode skip_preprocessing false trusted_format
      use_parallel use_simple_filter use_cached_threshold
    p.response.success = false
      ∧ (p.response.error.map ErrorInfo.code) = some "AUDIO_QUALITY_ISSUES"
      ∧ p.calls = [] ∧ p.audioUsed = none := by
  have hprod : ¬ s.SAMPLE_RATE * s.SAMPLE_WIDTH = 0 :=
    Nat.mul_ne_zero (Nat.pos_iff_ne_zero.mp hsr) (Nat.pos_iff_ne_zero.mp hsw)
  simp only [process_audio, if_neg hbytes]
  split
  · next heq => exact absurd heq (backfillDuration_ne_none hprod)
  · next m3 heq =>
    exact validationStage_silent s.audio m3 _ butter gOut model_loaded vDecode race elapsed
      command_mode skip_preprocessing use_parallel use_simple_filter hrms

/-- Witness for C1: a concrete nonempty WAV byte payload whose decoded
samples are all zero (rms 0) short-circuits to `AUDIO_QUALITY_ISSUES`. -/
theorem process_audio_silent_short_circuits_witness :
    ([82, 73, 70, 70, 0, 0, 0, 0, 87, 65, 86, 69] : List ℕ) ≠ []
    ∧ 0 < (16000 : ℕ) ∧ 0 < (2 : ℕ)
    ∧ rms [0, 0, 0] < 50
    ∧ (let p := process_audio [82, 73, 70, 70, 0, 0, 0, 0, 87, 65, 86, 69]
        ⟨some (1/4), some 16000, some 2, some 1, some "WAV", some 4000⟩
        (.ok ⟨⟨[0, 0, 0], 16000, 2⟩, 16000, 2⟩) .unknownValue false (fun _ => .error "x")
        ⟨true, 2⟩ (.ok 300) none (fun l => some l) 7 false false false none true false true
       p.response.success = false
         ∧ (p.response.error.map ErrorInfo.code) = some "AUDIO_QUALITY_ISSUES"
         ∧ p.calls = [] ∧ p.audioUsed = none) :=
  ⟨by decide, by decide, by decide, by simp [rms, Nat.sqrt_zero],
   process_audio_silent_short_circuits
     [82, 73, 70, 70, 0, 0, 0, 0, 87, 65, 86, 69]
     ⟨some (1/4), some 16000, some 2, some 1, some "WAV", some 4000⟩
     ⟨⟨[0, 0, 0], 16000, 2⟩, 16000, 2⟩ .unknownValue false (fun _ => .error "x")
     ⟨true, 2⟩ (.ok 300) none (fun l => some l) 7 false false none true false true
     (by decide) (by decide) (by decide) (by simp [rms, Nat.sqrt_zero])⟩

lemma runRecognition_command_mode (audio : AudioData) (metadata : Metadata)
    (warnings : List String) (st1 : Option ℚ) (butter : List ℚ → Option (List ℚ))
    (gOut : GoogleOutcome) (model_loaded : Bool) (vDecode : Bool → Except String VoskResult)
    (race : RaceEnv) (elapsed : ℕ) (skip_preprocessing use_parallel use_simple_filter : Bool) :
    let p := runRecognition audio metadata warnings st1 butter gOut model_loaded vDecode race
      elapsed true skip_preprocessing use_parallel use_simple_filter
    p.preprocessApplied = false ∧ p.audioUsed = some audio := by
  unfold runRecognition
  simp

lemma validationStage_command_mode (audio : AudioData) (metadata : Metadata)
    (st1 : Option ℚ) (butter : List ℚ → Option (List ℚ)) (gOut : GoogleOutcome)
    (model_loaded : Bool) (vDecode : Bool → Except String VoskResult) (race : RaceEnv)
    (elapsed : ℕ) (skip_preprocessing skip_validation use_parallel use_simple_filter : Bool) :
    let p := validationStage audio metadata st1 butter gOut model_loaded vDecode race elapsed
      true skip_preprocessing skip_validation use_parallel use_simple_filter
    p.preprocessApplied = false ∧ (p.audioUsed = none ∨ p.audioUsed = some audio) := by
  simp only [validationStage]
  split_ifs with h1 h2
  · exact ⟨rfl, Or.inl rfl⟩
  · have h := runRecognition_command_mode audio metadata
      (validate_audio_quality audio (metadata.sampleRate.getD 0)
        (metadata.duration.getD 0) (!true)).warnings
      st1 butter gOut model_loaded
      vDecode race elapsed skip_preprocessing use_parallel use_simple_filter
    exact ⟨h.1, Or.inr h.2⟩
  · have h := runRecognition_command_mode audio metadata [] st1 butter gOut model_loaded
      vDecode race elapsed skip_preprocessing use_parallel use_simple_filter
    exact ⟨h.1, Or.inr h.2⟩

/-- C10: with command mode active, the conditioning stage is never invoked
— even when the skip-conditioning flag is left false — and any audio handed
to the recognition backends is exactly the recorded audio that passed
validation, unmodified. -/
theorem command_mode_skips_conditioning
    (audio_bytes : List ℕ) (wavMeta : Metadata) (s : DecodedSource)
    (gOut : GoogleOutcome) (model_loaded : Bool) (vDecode : Bool → Except String VoskResult)
    (race : RaceEnv) (measure : Except Unit ℚ) (st : Option ℚ)
    (butter : List ℚ → Option (List ℚ)) (elapsed : ℕ)
    (skip_preprocessing skip_validation : Bool) (trusted_format : Option String)
    (use_parallel use_simple_filter use_cached_threshold : Bool) :
    let p := process_audio audio_bytes wavMeta (.ok s) gOut model_loaded vDecode race measure st
      butter elapsed true skip_preprocessing skip_validation trusted_format
      use_parallel use_simple_filter use_cached_threshold
    p.preprocessApplied = false ∧ (p.audioUsed = none ∨ p.audioUsed = some s.audio) := by
  simp only [process_audio]
  split
  · exact ⟨rfl, Or.inl rfl⟩
  · split
    · exact ⟨rfl, Or.inl rfl⟩
    · exact validationStage_command_mode s.audio _ _ butter gOut model_loaded vDecode race
        elapsed skip_preprocessing skip_validation use_parallel use_simple_filter
